import Mathlib

/-!
Shallow embedding of the weighted-sampling backfill scripts of the
buzz-fun-backend repository, together with theorems checking the
specification's claims about them.

Each script's loop body is embedded as a step function over an explicit
state record; the `while` loop is embedded as fuel-indexed iteration
(`runLoop`).  The random source (`random.random`, `random.randint`) is
passed in explicitly: `r : ℚ` is the uniform draw and
`pick : ℕ → ℕ → ℕ` is the integer chooser, constrained where needed by
the contract of `random.randint` (both bounds inclusive).  Remote calls
are passed in as outcome streams indexed by the number of calls made so
far.  Python's float literals 0.1 .. 0.4 are embedded as the exact
rationals they denote.
-/

set_option maxRecDepth 4000

/-- One entry of a FID_RANGES table: (min_fid, max_fid, weight). -/
structure RangeWeight where
  lo : ℕ
  hi : ℕ
  mass : ℚ
deriving DecidableEq

/-- The walk shared by both `generate_weighted_fid` implementations:
accumulate the weights in order and return the first range whose
cumulative mass reaches the uniform draw `rand`; `none` means the loop
fell through (the fallback branch). -/
def selectRange (rand : ℚ) : List RangeWeight → ℚ → Option RangeWeight
  | [], _ => none
  | rw :: rest, cum =>
    if rand ≤ cum + rw.mass then some rw else selectRange rand rest (cum + rw.mass)

/-- Fuel-indexed iteration of a `while guard: body` loop. -/
def runLoop {α : Type} (guard : α → Bool) (step : α → α) : ℕ → α → α
  | 0, s => s
  | fuel + 1, s => if guard s then runLoop guard step fuel (step s) else s

/-- The `data` object of a scoring-API response
(`{overallScore, tier, username, displayName, pfpUrl}`), every field
optional. -/
structure ScoreRecord where
  overallScore : Option ℚ
  tier : Option String
  username : Option String
  displayName : Option String
  pfpUrl : Option String
deriving DecidableEq

/-- Result of one `get_creator_score` call in the scripts that return the
parsed dict: either `success` was truthy (with its `data`), or it was
falsy (with the optional `error` message; curl failures and exceptions
are folded into this case, as the scripts do). -/
inductive FetchResult where
  | ok (data : ScoreRecord)
  | err (msg : Option String)
deriving DecidableEq

/-- Loop state of the fetch-only scripts: counters, the
`processed_fids` set (as a list), the number of fetch calls made, and
the total time slept (to observe the rate-limit delays). -/
structure RunState where
  successes : ℕ
  attempts : ℕ
  seen : List ℕ
  fetchCount : ℕ
  sleepTime : ℚ
deriving DecidableEq

/-- Initial loop state (`successful_adds = 0`, `attempts = 0`,
`processed_fids = set()`). -/
def initRunState : RunState := ⟨0, 0, [], 0, 0⟩

/-- Does the character list `h` start with `n`? (helper for the
substring test). -/
def startsWithChars : List Char → List Char → Bool
  | [], _ => true
  | _ :: _, [] => false
  | a :: as, b :: bs => a == b && startsWithChars as bs

/-- Does the character list contain `needle` as a contiguous run?
(helper for the substring test). -/
def containsChars (needle : List Char) : List Char → Bool
  | [] => needle.isEmpty
  | b :: bs => startsWithChars needle (b :: bs) || containsChars needle bs

/-- Python's `str.lower()`: lower-case every character. -/
def strLower (s : String) : String := ⟨s.data.map Char.toLower⟩

/-- Python's substring test `needle in hay` on strings. -/
def hasSubstr (hay needle : String) : Bool :=
  containsChars needle.toList hay.toList

/-- Python truthiness of an optional string (absent/`None` and the empty
string are falsy). -/
def pyTruthy : Option String → Bool
  | none => false
  | some s => !s.isEmpty

/-- Error taxonomy relevant here: a failure either carries a message the
scripts recognise as "the key does not exist" or is any other failure. -/
inductive FailureClass where
  | domainNotFound
  | otherFailure
deriving DecidableEq

/-- The classification `'not found' in error.lower() or 'invalid' in
error.lower()` used by simple_bulk_populate.py, update_all_profiles.py
and bulk_update_1_to_100.py. -/
def classify_error (msg : String) : FailureClass :=
  if hasSubstr (strLower msg) "not found" || hasSubstr (strLower msg) "invalid" then
    FailureClass.domainNotFound
  else
    FailureClass.otherFailure

namespace BulkPopulate

/-- FID_RANGES of bulk_populate.py. -/
def FID_RANGES : List RangeWeight :=
  [⟨1, 1000, 3/10⟩, ⟨1000, 5000, 4/10⟩, ⟨5000, 20000, 2/10⟩, ⟨20000, 50000, 1/10⟩]

/-- generate_weighted_fid of bulk_populate.py: walk FID_RANGES with the
uniform draw `r`; on the first match return `randint(min_fid, max_fid)`;
if the loop falls through, return `randint(20000, 50000)`. -/
def generate_weighted_fid (pick : ℕ → ℕ → ℕ) (r : ℚ) : ℕ :=
  match selectRange r FID_RANGES 0 with
  | some rw => pick rw.lo rw.hi
  | none => pick 20000 50000

/-- One user object of a Neynar bulk-user response; its `fid` field may
be absent. -/
structure NeynarUser where
  fid : Option ℤ
deriving DecidableEq

/-- Decoded JSON body of a Neynar response; `users` is
`data.get('users', [])`. -/
structure NeynarBody where
  users : List NeynarUser
deriving DecidableEq

/-- Result of the `subprocess.run` curl invocation: either an exception
was raised (timeout included), or the process finished with an exit code
and its captured stdout. -/
inductive CurlOutcome where
  | exn
  | done (returncode : ℤ) (stdout : String)
deriving DecidableEq

/-- check_neynar_user_exists of bulk_populate.py.  `decode` stands for
`json.loads` returning `none` on undecodable input.  The stdout carries
the body followed by the HTTP status code (curl `-w %\x7bhttp_code\x7d`),
split off as the final three characters. -/
def check_neynar_user_exists (decode : String → Option NeynarBody) (fid : ℤ) :
    CurlOutcome → Bool
  | CurlOutcome.exn => false
  | CurlOutcome.done rc out =>
    if rc ≠ 0 then false
    else if out.takeRight 3 ≠ "200" then false
    else
      match decode (out.dropRight 3) with
      | none => false
      | some data =>
        match data.users with
        | [] => false
        | u :: _ => decide (u.fid = some fid)

/-- Loop state of bulk_populate.py's main: as `RunState` plus the number
of Neynar existence checks made. -/
structure State where
  successes : ℕ
  attempts : ℕ
  seen : List ℕ
  verifyCount : ℕ
  fetchCount : ℕ
  sleepTime : ℚ
deriving DecidableEq

/-- Initial state of bulk_populate.py's main. -/
def initState : State := ⟨0, 0, [], 0, 0, 0⟩

/-- One iteration of bulk_populate.py's main loop.  `draws` is the
sampler output per iteration, `verifies` the Neynar check results in
call order, `outcomes` the `get_creator_score` results in call order
(`none` is Python's `None`).  `attempts += 1` precedes the dedupe test;
a deduped key skips the rest of the body; a failed verification sleeps
0.5 and skips the fetch; otherwise the fetch runs, a truthy result
increments `successful_adds`, and the iteration sleeps REQUEST_DELAY = 2. -/
def mainStep (draws : ℕ → ℕ) (verifies : ℕ → Bool)
    (outcomes : ℕ → Option ScoreRecord) (s : State) : State :=
  let fid := draws s.attempts
  if fid ∈ s.seen then
    { s with attempts := s.attempts + 1 }
  else if verifies s.verifyCount then
    match outcomes s.fetchCount with
    | some _ =>
      { successes := s.successes + 1, attempts := s.attempts + 1, seen := fid :: s.seen,
        verifyCount := s.verifyCount + 1, fetchCount := s.fetchCount + 1,
        sleepTime := s.sleepTime + 2 }
    | none =>
      { successes := s.successes, attempts := s.attempts + 1, seen := fid :: s.seen,
        verifyCount := s.verifyCount + 1, fetchCount := s.fetchCount + 1,
        sleepTime := s.sleepTime + 2 }
  else
    { successes := s.successes, attempts := s.attempts + 1, seen := fid :: s.seen,
      verifyCount := s.verifyCount + 1, fetchCount := s.fetchCount,
      sleepTime := s.sleepTime + 1/2 }

/-- Guard of bulk_populate.py's while loop:
`successful_adds < TARGET_USERS and attempts < max_attempts`. -/
def guard (quota maxAttempts : ℕ) (s : State) : Bool :=
  decide (s.successes < quota ∧ s.attempts < maxAttempts)

/-- bulk_populate.py's main loop as fuel-indexed iteration. -/
def mainRun (quota maxAttempts : ℕ) (draws : ℕ → ℕ) (verifies : ℕ → Bool)
    (outcomes : ℕ → Option ScoreRecord) (fuel : ℕ) (s : State) : State :=
  runLoop (guard quota maxAttempts) (mainStep draws verifies outcomes) fuel s

end BulkPopulate

namespace SimpleBulkPopulate

/-- FID_RANGES of simple_bulk_populate.py. -/
def FID_RANGES : List RangeWeight :=
  [⟨1, 1000, 4/10⟩, ⟨1000, 5000, 3/10⟩, ⟨5000, 15000, 2/10⟩, ⟨15000, 30000, 1/10⟩]

/-- generate_weighted_fid of simple_bulk_populate.py: same walk, but the
fallback after the loop is `randint(1, 5000)`. -/
def generate_weighted_fid (pick : ℕ → ℕ → ℕ) (r : ℚ) : ℕ :=
  match selectRange r FID_RANGES 0 with
  | some rw => pick rw.lo rw.hi
  | none => pick 1 5000

/-- One iteration of simple_bulk_populate.py's main loop.
`attempts += 1` precedes the dedupe test; a deduped key skips the rest
of the body; otherwise the fetch runs, `result.get('success')` truthy
increments `successful_adds` (the score value is not inspected), and
the iteration sleeps REQUEST_DELAY = 1.5. -/
def mainStep (draws : ℕ → ℕ) (outcomes : ℕ → FetchResult) (s : RunState) : RunState :=
  let fid := draws s.attempts
  if fid ∈ s.seen then
    { s with attempts := s.attempts + 1 }
  else
    match outcomes s.fetchCount with
    | FetchResult.ok _ =>
      { successes := s.successes + 1, attempts := s.attempts + 1, seen := fid :: s.seen,
        fetchCount := s.fetchCount + 1, sleepTime := s.sleepTime + 3/2 }
    | FetchResult.err _ =>
      { successes := s.successes, attempts := s.attempts + 1, seen := fid :: s.seen,
        fetchCount := s.fetchCount + 1, sleepTime := s.sleepTime + 3/2 }

/-- Guard of simple_bulk_populate.py's while loop. -/
def guard (quota maxAttempts : ℕ) (s : RunState) : Bool :=
  decide (s.successes < quota ∧ s.attempts < maxAttempts)

/-- simple_bulk_populate.py's main loop as fuel-indexed iteration. -/
def mainRun (quota maxAttempts : ℕ) (draws : ℕ → ℕ) (outcomes : ℕ → FetchResult)
    (fuel : ℕ) (s : RunState) : RunState :=
  runLoop (guard quota maxAttempts) (mainStep draws outcomes) fuel s

end SimpleBulkPopulate

namespace TargetedBulkPopulate

/-- One iteration of targeted_bulk_populate.py's main loop.  Unlike the
simple variant, on a successful response it reads
`score_data.get('overallScore')` and increments `successful_adds` only
when the score is not `None`; REQUEST_DELAY = 1. -/
def mainStep (draws : ℕ → ℕ) (outcomes : ℕ → FetchResult) (s : RunState) : RunState :=
  let fid := draws s.attempts
  if fid ∈ s.seen then
    { s with attempts := s.attempts + 1 }
  else
    match outcomes s.fetchCount with
    | FetchResult.ok data =>
      match data.overallScore with
      | some _ =>
        { successes := s.successes + 1, attempts := s.attempts + 1, seen := fid :: s.seen,
          fetchCount := s.fetchCount + 1, sleepTime := s.sleepTime + 1 }
      | none =>
        { successes := s.successes, attempts := s.attempts + 1, seen := fid :: s.seen,
          fetchCount := s.fetchCount + 1, sleepTime := s.sleepTime + 1 }
    | FetchResult.err _ =>
      { successes := s.successes, attempts := s.attempts + 1, seen := fid :: s.seen,
        fetchCount := s.fetchCount + 1, sleepTime := s.sleepTime + 1 }

/-- Guard of targeted_bulk_populate.py's while loop. -/
def guard (quota maxAttempts : ℕ) (s : RunState) : Bool :=
  decide (s.successes < quota ∧ s.attempts < maxAttempts)

/-- targeted_bulk_populate.py's main loop as fuel-indexed iteration. -/
def mainRun (quota maxAttempts : ℕ) (draws : ℕ → ℕ) (outcomes : ℕ → FetchResult)
    (fuel : ℕ) (s : RunState) : RunState :=
  runLoop (guard quota maxAttempts) (mainStep draws outcomes) fuel s

end TargetedBulkPopulate

namespace ForceCacheRefresh

/-- One row of the leaderboard response as the audit code reads it. -/
structure AggregateEntry where
  rank : ℕ
  fid : ℤ
  overallScore : Option ℚ
  tier : Option String
  username : Option String
  displayName : Option String
  pfpUrl : Option String
deriving DecidableEq

/-- The per-entry test of the final coverage count in
force_cache_refresh.py and update_all_profiles.py:
`entry.get('username') or entry.get('displayName')` under Python
truthiness. -/
def hasEnrichment (e : AggregateEntry) : Bool :=
  pyTruthy e.username || pyTruthy e.displayName

/-- `with_profiles = sum(1 for entry in leaderboard if ...)`. -/
def with_profiles (leaderboard : List AggregateEntry) : ℕ :=
  leaderboard.countP hasEnrichment

/-- `total_entries = len(leaderboard)`. -/
def total_entries (leaderboard : List AggregateEntry) : ℕ :=
  leaderboard.length

/-- The coverage report printed at the end of the audit:
(totalEntries, enrichedEntries). -/
def audit (leaderboard : List AggregateEntry) : ℕ × ℕ :=
  (total_entries leaderboard, with_profiles leaderboard)

end ForceCacheRefresh

/-- Modelled from the spec (section 3): "Has enrichment" is defined as
(username present) OR (displayName present), where an absent or empty
field does not count.  Stated as a proposition to compare with the
code's `hasEnrichment`. -/
def specHasEnrichment (e : ForceCacheRefresh.AggregateEntry) : Prop :=
  (∃ s, e.username = some s ∧ s ≠ "") ∨ (∃ s, e.displayName = some s ∧ s ≠ "")

namespace BulkUpdate1To100

/-- Result of `update_fid_with_profile` for one FID, reduced to what the
counting code reads: a `'success'` result with its `hasProfile` bit, an
`'error'` result with the API error message, or a `'failed'` result
with a transport/decode error message. -/
inductive UpdateStatus where
  | success (hasProfile : Bool)
  | error (msg : String)
  | failed (msg : String)
deriving DecidableEq

/-- The four counters of bulk_update_1_to_100.py's main. -/
structure Counters where
  successful_updates : ℕ
  failed_updates : ℕ
  not_found : ℕ
  with_profiles : ℕ
deriving DecidableEq

/-- Counter update for one FID's result, as in the loop body of main:
a success increments `successful_updates` (and `with_profiles` when the
result has profile data); an error whose message matches the
not-found/invalid substrings increments `not_found`, any other error or
failure increments `failed_updates`. -/
def countStep (c : Counters) : UpdateStatus → Counters
  | UpdateStatus.success hp =>
    { c with successful_updates := c.successful_updates + 1,
             with_profiles := if hp then c.with_profiles + 1 else c.with_profiles }
  | UpdateStatus.error msg =>
    if hasSubstr (strLower msg) "not found" || hasSubstr (strLower msg) "invalid" then
      { c with not_found := c.not_found + 1 }
    else
      { c with failed_updates := c.failed_updates + 1 }
  | UpdateStatus.failed _ =>
    { c with failed_updates := c.failed_updates + 1 }

/-- The counters after the `for fid in range(1, 101)` loop, given the
per-FID results in order. -/
def runUpdates (results : List UpdateStatus) : Counters :=
  results.foldl countStep ⟨0, 0, 0, 0⟩

/-- The profile-coverage ratio printed in the final summary:
`with_profiles / successful_updates * 100`, a plain division with no
zero guard, so it is `none` (ZeroDivisionError) when
`successful_updates = 0`. -/
def profileCoverage (c : Counters) : Option ℚ :=
  if c.successful_updates = 0 then none
  else some ((c.with_profiles : ℚ) / (c.successful_updates : ℚ) * 100)

/-- How main ends after the update loop: the summary's division either
raises ZeroDivisionError — which is uncaught, so the script dies before
the leaderboard-refresh block further down — or yields the coverage
ratio, after which control reaches the refresh step. -/
inductive MainResult where
  | zeroDivisionAbort
  | completed (coverage : ℚ) (refreshReached : Bool)
deriving DecidableEq

/-- The tail of main after the update loop: print the summary (fallible
division), then, only if that did not raise, go on to the
leaderboard-refresh step. -/
def mainSummary (results : List UpdateStatus) : MainResult :=
  match profileCoverage (runUpdates results) with
  | none => MainResult.zeroDivisionAbort
  | some q => MainResult.completed q true

end BulkUpdate1To100

theorem runLoop_succ {α : Type} (g : α → Bool) (step : α → α) (fuel : ℕ) (s : α) :
    runLoop g step (fuel + 1) s = if g s then runLoop g step fuel (step s) else s := rfl

theorem runLoop_inv {α : Type} (g : α → Bool) (step : α → α) (P : α → Prop)
    (hstep : ∀ s, g s = true → P s → P (step s)) :
    ∀ fuel s, P s → P (runLoop g step fuel s) := by
  intro fuel
  induction fuel with
  | zero => intro s hs; exact hs
  | succ n ih =>
    intro s hs
    rw [runLoop_succ]
    by_cases hg : g s = true
    · rw [if_pos hg]; exact ih (step s) (hstep s hg hs)
    · rw [if_neg hg]; exact hs

theorem runLoop_stops {α : Type} (g : α → Bool) (step : α → α) (meas : α → ℕ) (maxA : ℕ)
    (hstep : ∀ s, g s = true → meas (step s) = meas s + 1)
    (hbound : ∀ s, g s = true → meas s < maxA) :
    ∀ fuel s, maxA ≤ meas s + fuel → g (runLoop g step fuel s) = false := by
  intro fuel
  induction fuel with
  | zero =>
    intro s h
    cases hg : g s with
    | false => exact hg
    | true => exact absurd (hbound s hg) (by omega)
  | succ n ih =>
    intro s h
    rw [runLoop_succ]
    by_cases hg : g s = true
    · rw [if_pos hg]
      exact ih (step s) (by rw [hstep s hg]; omega)
    · rw [if_neg hg]
      exact Bool.not_eq_true _ |>.mp hg

theorem simple_mainStep_shape (d : ℕ → ℕ) (o : ℕ → FetchResult) (s : RunState) :
    (SimpleBulkPopulate.mainStep d o s).attempts = s.attempts + 1 ∧
    ((SimpleBulkPopulate.mainStep d o s).successes = s.successes ∨
     (SimpleBulkPopulate.mainStep d o s).successes = s.successes + 1) := by
  unfold SimpleBulkPopulate.mainStep
  dsimp only
  split
  · exact ⟨rfl, Or.inl rfl⟩
  · split
    · exact ⟨rfl, Or.inr rfl⟩
    · exact ⟨rfl, Or.inl rfl⟩

theorem targeted_mainStep_shape (d : ℕ → ℕ) (o : ℕ → FetchResult) (s : RunState) :
    (TargetedBulkPopulate.mainStep d o s).attempts = s.attempts + 1 ∧
    ((TargetedBulkPopulate.mainStep d o s).successes = s.successes ∨
     (TargetedBulkPopulate.mainStep d o s).successes = s.successes + 1) := by
  unfold TargetedBulkPopulate.mainStep
  dsimp only
  split
  · exact ⟨rfl, Or.inl rfl⟩
  · split
    · split
      · exact ⟨rfl, Or.inr rfl⟩
      · exact ⟨rfl, Or.inl rfl⟩
    · exact ⟨rfl, Or.inl rfl⟩

theorem bulk_mainStep_shape (d : ℕ → ℕ) (v : ℕ → Bool) (o : ℕ → Option ScoreRecord)
    (s : BulkPopulate.State) :
    (BulkPopulate.mainStep d v o s).attempts = s.attempts + 1 ∧
    ((BulkPopulate.mainStep d v o s).successes = s.successes ∨
     (BulkPopulate.mainStep d v o s).successes = s.successes + 1) := by
  unfold BulkPopulate.mainStep
  dsimp only
  split
  · exact ⟨rfl, Or.inl rfl⟩
  · split
    · split
      · exact ⟨rfl, Or.inr rfl⟩
      · exact ⟨rfl, Or.inl rfl⟩
    · exact ⟨rfl, Or.inl rfl⟩

/-- C3: for every finite attempt budget and quota and every sequence of
sampler draws and fetch/verify outcomes, each of the three backfill
loops (simple, targeted, bulk) reaches its stop condition — quota met or
budget exhausted — within `maxAttempts` iterations of fuel; none can run
forever. -/
theorem backfill_loop_always_stops
    (quota maxAttempts fuel : ℕ) (hfuel : maxAttempts ≤ fuel)
    (dS : ℕ → ℕ) (oS : ℕ → FetchResult)
    (dT : ℕ → ℕ) (oT : ℕ → FetchResult)
    (dB : ℕ → ℕ) (vB : ℕ → Bool) (oB : ℕ → Option ScoreRecord) :
    (quota ≤ (SimpleBulkPopulate.mainRun quota maxAttempts dS oS fuel initRunState).successes ∨
     maxAttempts ≤ (SimpleBulkPopulate.mainRun quota maxAttempts dS oS fuel initRunState).attempts) ∧
    (quota ≤ (TargetedBulkPopulate.mainRun quota maxAttempts dT oT fuel initRunState).successes ∨
     maxAttempts ≤ (TargetedBulkPopulate.mainRun quota maxAttempts dT oT fuel initRunState).attempts) ∧
    (quota ≤ (BulkPopulate.mainRun quota maxAttempts dB vB oB fuel BulkPopulate.initState).successes ∨
     maxAttempts ≤ (BulkPopulate.mainRun quota maxAttempts dB vB oB fuel BulkPopulate.initState).attempts) := by
  refine ⟨?_, ?_, ?_⟩
  · have h := runLoop_stops (SimpleBulkPopulate.guard quota maxAttempts)
      (SimpleBulkPopulate.mainStep dS oS) (fun s => s.attempts) maxAttempts
      (fun s _ => (simple_mainStep_shape dS oS s).1)
      (fun s hg => by
        unfold SimpleBulkPopulate.guard at hg
        exact (of_decide_eq_true hg).2)
      fuel initRunState (by simpa [initRunState] using hfuel)
    unfold SimpleBulkPopulate.guard at h
    rw [decide_eq_false_iff_not] at h
    rcases not_and_or.mp h with hl | hr
    · exact Or.inl (le_of_not_lt hl)
    · exact Or.inr (le_of_not_lt hr)
  · have h := runLoop_stops (TargetedBulkPopulate.guard quota maxAttempts)
      (TargetedBulkPopulate.mainStep dT oT) (fun s => s.attempts) maxAttempts
      (fun s _ => (targeted_mainStep_shape dT oT s).1)
      (fun s hg => by
        unfold TargetedBulkPopulate.guard at hg
        exact (of_decide_eq_true hg).2)
      fuel initRunState (by simpa [initRunState] using hfuel)
    unfold TargetedBulkPopulate.guard at h
    rw [decide_eq_false_iff_not] at h
    rcases not_and_or.mp h with hl | hr
    · exact Or.inl (le_of_not_lt hl)
    · exact Or.inr (le_of_not_lt hr)
  · have h := runLoop_stops (BulkPopulate.guard quota maxAttempts)
      (BulkPopulate.mainStep dB vB oB) (fun s => s.attempts) maxAttempts
      (fun s _ => (bulk_mainStep_shape dB vB oB s).1)
      (fun s hg => by
        unfold BulkPopulate.guard at hg
        exact (of_decide_eq_true hg).2)
      fuel BulkPopulate.initState (by simpa [BulkPopulate.initState] using hfuel)
    unfold BulkPopulate.guard at h
    rw [decide_eq_false_iff_not] at h
    rcases not_and_or.mp h with hl | hr
    · exact Or.inl (le_of_not_lt hl)
    · exact Or.inr (le_of_not_lt hr)

/-- Witness for C3: with quota 1, budget 2 and fuel 2, all three loops
are stopped. -/
theorem backfill_loop_always_stops_witness :
    (2 : ℕ) ≤ 2 ∧
    ((1 ≤ (SimpleBulkPopulate.mainRun 1 2 (fun _ => 7) (fun _ => FetchResult.err none) 2 initRunState).successes ∨
      2 ≤ (SimpleBulkPopulate.mainRun 1 2 (fun _ => 7) (fun _ => FetchResult.err none) 2 initRunState).attempts) ∧
     (1 ≤ (TargetedBulkPopulate.mainRun 1 2 (fun _ => 7) (fun _ => FetchResult.err none) 2 initRunState).successes ∨
      2 ≤ (TargetedBulkPopulate.mainRun 1 2 (fun _ => 7) (fun _ => FetchResult.err none) 2 initRunState).attempts) ∧
     (1 ≤ (BulkPopulate.mainRun 1 2 (fun _ => 7) (fun _ => false) (fun _ => none) 2 BulkPopulate.initState).successes ∨
      2 ≤ (BulkPopulate.mainRun 1 2 (fun _ => 7) (fun _ => false) (fun _ => none) 2 BulkPopulate.initState).attempts)) :=
  ⟨by decide,
   backfill_loop_always_stops 1 2 2 (by decide)
     (fun _ => 7) (fun _ => FetchResult.err none)
     (fun _ => 7) (fun _ => FetchResult.err none)
     (fun _ => 7) (fun _ => false) (fun _ => none)⟩

/-- C4: in every run of each of the three loops — in particular at the
stopped state — the counters satisfy successes ≤ attempts and
attempts ≤ attemptBudget. -/
theorem stopped_counters_bounded
    (quota maxAttempts fuel : ℕ)
    (dS : ℕ → ℕ) (oS : ℕ → FetchResult)
    (dT : ℕ → ℕ) (oT : ℕ → FetchResult)
    (dB : ℕ → ℕ) (vB : ℕ → Bool) (oB : ℕ → Option ScoreRecord) :
    ((SimpleBulkPopulate.mainRun quota maxAttempts dS oS fuel initRunState).successes ≤
       (SimpleBulkPopulate.mainRun quota maxAttempts dS oS fuel initRunState).attempts ∧
     (SimpleBulkPopulate.mainRun quota maxAttempts dS oS fuel initRunState).attempts ≤ maxAttempts) ∧
    ((TargetedBulkPopulate.mainRun quota maxAttempts dT oT fuel initRunState).successes ≤
       (TargetedBulkPopulate.mainRun quota maxAttempts dT oT fuel initRunState).attempts ∧
     (TargetedBulkPopulate.mainRun quota maxAttempts dT oT fuel initRunState).attempts ≤ maxAttempts) ∧
    ((BulkPopulate.mainRun quota maxAttempts dB vB oB fuel BulkPopulate.initState).successes ≤
       (BulkPopulate.mainRun quota maxAttempts dB vB oB fuel BulkPopulate.initState).attempts ∧
     (BulkPopulate.mainRun quota maxAttempts dB vB oB fuel BulkPopulate.initState).attempts ≤ maxAttempts) := by
  refine ⟨?_, ?_, ?_⟩
  · exact runLoop_inv (SimpleBulkPopulate.guard quota maxAttempts)
      (SimpleBulkPopulate.mainStep dS oS)
      (fun s => s.successes ≤ s.attempts ∧ s.attempts ≤ maxAttempts)
      (fun s hg hp => by
        obtain ⟨ha, hs⟩ := simple_mainStep_shape dS oS s
        have hlt : s.attempts < maxAttempts := by
          unfold SimpleBulkPopulate.guard at hg
          exact (of_decide_eq_true hg).2
        rcases hs with h1 | h1 <;> (constructor <;> omega))
      fuel initRunState ⟨Nat.le_refl 0, Nat.zero_le _⟩
  · exact runLoop_inv (TargetedBulkPopulate.guard quota maxAttempts)
      (TargetedBulkPopulate.mainStep dT oT)
      (fun s => s.successes ≤ s.attempts ∧ s.attempts ≤ maxAttempts)
      (fun s hg hp => by
        obtain ⟨ha, hs⟩ := targeted_mainStep_shape dT oT s
        have hlt : s.attempts < maxAttempts := by
          unfold TargetedBulkPopulate.guard at hg
          exact (of_decide_eq_true hg).2
        rcases hs with h1 | h1 <;> (constructor <;> omega))
      fuel initRunState ⟨Nat.le_refl 0, Nat.zero_le _⟩
  · exact runLoop_inv (BulkPopulate.guard quota maxAttempts)
      (BulkPopulate.mainStep dB vB oB)
      (fun s => s.successes ≤ s.attempts ∧ s.attempts ≤ maxAttempts)
      (fun s hg hp => by
        obtain ⟨ha, hs⟩ := bulk_mainStep_shape dB vB oB s
        have hlt : s.attempts < maxAttempts := by
          unfold BulkPopulate.guard at hg
          exact (of_decide_eq_true hg).2
        rcases hs with h1 | h1 <;> (constructor <;> omega))
      fuel BulkPopulate.initState ⟨Nat.le_refl 0, Nat.zero_le _⟩

/-- C1 amended: in all three loops, an iteration whose drawn key is
already in the seen set discards the key and returns to sampling
without sleeping and without touching any other state — but it does
consume one attempt-budget unit: `attempts += 1` runs before the dedupe
test, so attempts increases on every iteration, deduped or not. -/
theorem dedupe_consumes_attempt_but_no_sleep
    (dS : ℕ → ℕ) (oS : ℕ → FetchResult) (s : RunState)
    (dT : ℕ → ℕ) (oT : ℕ → FetchResult) (t : RunState)
    (dB : ℕ → ℕ) (vB : ℕ → Bool) (oB : ℕ → Option ScoreRecord) (b : BulkPopulate.State)
    (hS : dS s.attempts ∈ s.seen) (hT : dT t.attempts ∈ t.seen)
    (hB : dB b.attempts ∈ b.seen) :
    (SimpleBulkPopulate.mainStep dS oS s = { s with attempts := s.attempts + 1 } ∧
     TargetedBulkPopulate.mainStep dT oT t = { t with attempts := t.attempts + 1 } ∧
     BulkPopulate.mainStep dB vB oB b = { b with attempts := b.attempts + 1 }) ∧
    ((∀ s2 : RunState, (SimpleBulkPopulate.mainStep dS oS s2).attempts = s2.attempts + 1) ∧
     (∀ t2 : RunState, (TargetedBulkPopulate.mainStep dT oT t2).attempts = t2.attempts + 1) ∧
     (∀ b2 : BulkPopulate.State, (BulkPopulate.mainStep dB vB oB b2).attempts = b2.attempts + 1)) := by
  refine ⟨⟨?_, ?_, ?_⟩,
    fun s2 => (simple_mainStep_shape dS oS s2).1,
    fun t2 => (targeted_mainStep_shape dT oT t2).1,
    fun b2 => (bulk_mainStep_shape dB vB oB b2).1⟩
  · unfold SimpleBulkPopulate.mainStep
    dsimp only
    rw [if_pos hS]
  · unfold TargetedBulkPopulate.mainStep
    dsimp only
    rw [if_pos hT]
  · unfold BulkPopulate.mainStep
    dsimp only
    rw [if_pos hB]

/-- Witness for the amended C1: a concrete deduped iteration in each
loop leaves everything unchanged except attempts, which grows by one. -/
theorem dedupe_consumes_attempt_but_no_sleep_witness :
    ((5 : ℕ) ∈ ([5] : List ℕ)) ∧
    (SimpleBulkPopulate.mainStep (fun _ => 5) (fun _ => FetchResult.err none) ⟨0, 1, [5], 1, 2⟩ =
       { RunState.mk 0 1 [5] 1 2 with attempts := 1 + 1 } ∧
     TargetedBulkPopulate.mainStep (fun _ => 5) (fun _ => FetchResult.err none) ⟨0, 1, [5], 1, 2⟩ =
       { RunState.mk 0 1 [5] 1 2 with attempts := 1 + 1 } ∧
     BulkPopulate.mainStep (fun _ => 5) (fun _ => true) (fun _ => none) ⟨0, 1, [5], 1, 1, 2⟩ =
       { BulkPopulate.State.mk 0 1 [5] 1 1 2 with attempts := 1 + 1 }) :=
  ⟨by decide,
   (dedupe_consumes_attempt_but_no_sleep
     (fun _ => 5) (fun _ => FetchResult.err none) ⟨0, 1, [5], 1, 2⟩
     (fun _ => 5) (fun _ => FetchResult.err none) ⟨0, 1, [5], 1, 2⟩
     (fun _ => 5) (fun _ => true) (fun _ => none) ⟨0, 1, [5], 1, 1, 2⟩
     (by decide) (by decide) (by decide)).1⟩

/-- Counterexample to C1 as stated: in simple_bulk_populate's loop with
the sampler constantly drawing 5, the second iteration finds its key
already seen, yet attempts rises from 1 to 2 — the deduped iteration
does consume an attempt-budget unit (it does not sleep, as the claim
says). -/
theorem dedupe_consumes_attempt_cex :
    (let d : ℕ → ℕ := fun _ => 5
     let o : ℕ → FetchResult := fun _ => FetchResult.err none
     let s1 := SimpleBulkPopulate.mainStep d o initRunState
     let s2 := SimpleBulkPopulate.mainStep d o s1
     d s1.attempts ∈ s1.seen ∧ s1.attempts = 1 ∧ s2.attempts = 2 ∧
     s2.successes = s1.successes ∧ s2.sleepTime = s1.sleepTime ∧ s2.seen = s1.seen) :=
  ⟨List.Mem.head _, rfl, rfl, rfl, rfl, rfl⟩

/-- C2 amended: on a fresh key, targeted_bulk_populate increments
successes only when the successful response carries a non-null
overallScore — a null score leaves successes unchanged while attempts
still grows by one — but simple_bulk_populate increments successes on
every success-flagged response, null score included. -/
theorem null_score_success_handling
    (d : ℕ → ℕ) (o : ℕ → FetchResult) (s : RunState) (rec : ScoreRecord)
    (hfresh : d s.attempts ∉ s.seen) (hout : o s.fetchCount = FetchResult.ok rec) :
    (rec.overallScore = none →
       (TargetedBulkPopulate.mainStep d o s).successes = s.successes ∧
       (TargetedBulkPopulate.mainStep d o s).attempts = s.attempts + 1) ∧
    (∀ q : ℚ, rec.overallScore = some q →
       (TargetedBulkPopulate.mainStep d o s).successes = s.successes + 1) ∧
    ((SimpleBulkPopulate.mainStep d o s).successes = s.successes + 1) := by
  refine ⟨?_, ?_, ?_⟩
  · intro hnull
    unfold TargetedBulkPopulate.mainStep
    dsimp only
    rw [if_neg hfresh, hout]
    dsimp only
    rw [hnull]
    exact ⟨rfl, rfl⟩
  · intro q hq
    unfold TargetedBulkPopulate.mainStep
    dsimp only
    rw [if_neg hfresh, hout]
    dsimp only
    rw [hq]
  · unfold SimpleBulkPopulate.mainStep
    dsimp only
    rw [if_neg hfresh, hout]

/-- Witness for the amended C2, at the spec's own example: key 42 with
`{success: true, data: {overallScore: null, tier: "D"}}` leaves
successes unchanged in the targeted loop but increments it in the
simple loop. -/
theorem null_score_success_handling_witness :
    ((42 : ℕ) ∉ ([] : List ℕ)) ∧
    (TargetedBulkPopulate.mainStep (fun _ => 42)
       (fun _ => FetchResult.ok ⟨none, some "D", none, none, none⟩) initRunState).successes =
      initRunState.successes ∧
    (SimpleBulkPopulate.mainStep (fun _ => 42)
       (fun _ => FetchResult.ok ⟨none, some "D", none, none, none⟩) initRunState).successes =
      initRunState.successes + 1 :=
  ⟨by decide,
   ((null_score_success_handling (fun _ => 42)
      (fun _ => FetchResult.ok ⟨none, some "D", none, none, none⟩) initRunState
      ⟨none, some "D", none, none, none⟩ (by decide) rfl).1 rfl).1,
   (null_score_success_handling (fun _ => 42)
      (fun _ => FetchResult.ok ⟨none, some "D", none, none, none⟩) initRunState
      ⟨none, some "D", none, none, none⟩ (by decide) rfl).2.2⟩

/-- Counterexample to C2 as stated: in simple_bulk_populate's loop, the
spec's example outcome — success with a null overallScore at key 42 —
does increment successes (from 0 to 1) on its iteration. -/
theorem null_score_increments_simple_cex :
    (let o : ℕ → FetchResult := fun _ => FetchResult.ok ⟨none, some "D", none, none, none⟩
     let s1 := SimpleBulkPopulate.mainStep (fun _ => 42) o initRunState
     s1.successes = 1 ∧ s1.attempts = 1) := by
  decide

theorem selectRange_mem (l : List RangeWeight) (r cum : ℚ) (rw : RangeWeight)
    (h : selectRange r l cum = some rw) : rw ∈ l := by
  induction l generalizing cum with
  | nil => simp [selectRange] at h
  | cons hd tl ih =>
    unfold selectRange at h
    by_cases hc : r ≤ cum + hd.mass
    · rw [if_pos hc] at h
      exact (Option.some_inj.mp h) ▸ List.mem_cons_self hd tl
    · rw [if_neg hc] at h
      exact List.mem_cons_of_mem hd (ih (cum + hd.mass) h)

/-- C6 amended: every draw of generate_weighted_fid lies within the
selected range (or the fallback range) with both bounds inclusive —
`random.randint(min_fid, max_fid)` includes max_fid, so the upper bound
is attainable, not exclusive. -/
theorem draw_within_selected_range_inclusive
    (pick : ℕ → ℕ → ℕ) (hpick : ∀ a b : ℕ, a ≤ b → a ≤ pick a b ∧ pick a b ≤ b) (r : ℚ) :
    (∀ rw : RangeWeight, selectRange r BulkPopulate.FID_RANGES 0 = some rw →
       rw.lo ≤ BulkPopulate.generate_weighted_fid pick r ∧
       BulkPopulate.generate_weighted_fid pick r ≤ rw.hi) ∧
    (selectRange r BulkPopulate.FID_RANGES 0 = none →
       20000 ≤ BulkPopulate.generate_weighted_fid pick r ∧
       BulkPopulate.generate_weighted_fid pick r ≤ 50000) ∧
    (∀ rw : RangeWeight, selectRange r SimpleBulkPopulate.FID_RANGES 0 = some rw →
       rw.lo ≤ SimpleBulkPopulate.generate_weighted_fid pick r ∧
       SimpleBulkPopulate.generate_weighted_fid pick r ≤ rw.hi) ∧
    (selectRange r SimpleBulkPopulate.FID_RANGES 0 = none →
       1 ≤ SimpleBulkPopulate.generate_weighted_fid pick r ∧
       SimpleBulkPopulate.generate_weighted_fid pick r ≤ 5000) := by
  refine ⟨?_, ?_, ?_, ?_⟩
  · intro rw h
    have hmem : rw ∈ BulkPopulate.FID_RANGES := selectRange_mem _ _ _ _ h
    have hlohi : rw.lo ≤ rw.hi := by
      simp only [BulkPopulate.FID_RANGES, List.mem_cons, List.not_mem_nil, or_false] at hmem
      rcases hmem with h1 | h1 | h1 | h1 <;> (subst h1; decide)
    have hg : BulkPopulate.generate_weighted_fid pick r = pick rw.lo rw.hi := by
      unfold BulkPopulate.generate_weighted_fid
      rw [h]
    rw [hg]
    exact hpick rw.lo rw.hi hlohi
  · intro h
    have hg : BulkPopulate.generate_weighted_fid pick r = pick 20000 50000 := by
      unfold BulkPopulate.generate_weighted_fid
      rw [h]
    rw [hg]
    exact hpick 20000 50000 (by omega)
  · intro rw h
    have hmem : rw ∈ SimpleBulkPopulate.FID_RANGES := selectRange_mem _ _ _ _ h
    have hlohi : rw.lo ≤ rw.hi := by
      simp only [SimpleBulkPopulate.FID_RANGES, List.mem_cons, List.not_mem_nil, or_false] at hmem
      rcases hmem with h1 | h1 | h1 | h1 <;> (subst h1; decide)
    have hg : SimpleBulkPopulate.generate_weighted_fid pick r = pick rw.lo rw.hi := by
      unfold SimpleBulkPopulate.generate_weighted_fid
      rw [h]
    rw [hg]
    exact hpick rw.lo rw.hi hlohi
  · intro h
    have hg : SimpleBulkPopulate.generate_weighted_fid pick r = pick 1 5000 := by
      unfold SimpleBulkPopulate.generate_weighted_fid
      rw [h]
    rw [hg]
    exact hpick 1 5000 (by omega)

/-- Witness for the amended C6: with the draw 0.1 the first range of
bulk_populate.py's table is selected and the returned key lies in
[1, 1000]. -/
theorem draw_within_selected_range_inclusive_witness :
    selectRange (1/10) BulkPopulate.FID_RANGES 0 = some ⟨1, 1000, 3/10⟩ ∧
    (1 ≤ BulkPopulate.generate_weighted_fid (fun a _ => a) (1/10) ∧
     BulkPopulate.generate_weighted_fid (fun a _ => a) (1/10) ≤ 1000) :=
  ⟨by simp only [selectRange, BulkPopulate.FID_RANGES]; norm_num,
   (draw_within_selected_range_inclusive (fun a _ => a) (fun a b h => ⟨le_refl a, h⟩) (1/10)).1
     ⟨1, 1000, 3/10⟩ (by simp only [selectRange, BulkPopulate.FID_RANGES]; norm_num)⟩

/-- Counterexample to C6 as stated: with draw 0.1 the selected range of
bulk_populate.py is (1, 1000, 0.3), and `randint`'s inclusive upper
bound can return exactly 1000, violating k < upperBound. -/
theorem draw_exclusive_upper_bound_cex :
    selectRange (1/10) BulkPopulate.FID_RANGES 0 = some ⟨1, 1000, 3/10⟩ ∧
    (∀ a b : ℕ, a ≤ b → a ≤ (fun (_ b : ℕ) => b) a b ∧ (fun (_ b : ℕ) => b) a b ≤ b) ∧
    BulkPopulate.generate_weighted_fid (fun _ b => b) (1/10) = 1000 ∧
    ¬(BulkPopulate.generate_weighted_fid (fun _ b => b) (1/10) < 1000) := by
  have hsel : selectRange (1/10) BulkPopulate.FID_RANGES 0 = some ⟨1, 1000, 3/10⟩ := by
    simp only [selectRange, BulkPopulate.FID_RANGES]
    norm_num
  refine ⟨hsel, fun a b h => ⟨h, le_refl b⟩, ?_, ?_⟩
  · unfold BulkPopulate.generate_weighted_fid
    rw [hsel]
  · unfold BulkPopulate.generate_weighted_fid
    rw [hsel]
    decide

/-- C5 amended: when no range matches the draw, bulk_populate.py's
fallback does return a key from its last configured range
(20000, 50000), but simple_bulk_populate.py's fallback returns a key
from the fixed range [1, 5000], not from its last configured range
(15000, 30000). -/
theorem fallback_range_amended
    (pick : ℕ → ℕ → ℕ) (hpick : ∀ a b : ℕ, a ≤ b → a ≤ pick a b ∧ pick a b ≤ b) (r : ℚ) :
    BulkPopulate.FID_RANGES.getLast? = some ⟨20000, 50000, 1/10⟩ ∧
    (selectRange r BulkPopulate.FID_RANGES 0 = none →
       20000 ≤ BulkPopulate.generate_weighted_fid pick r ∧
       BulkPopulate.generate_weighted_fid pick r ≤ 50000) ∧
    SimpleBulkPopulate.FID_RANGES.getLast? = some ⟨15000, 30000, 1/10⟩ ∧
    (selectRange r SimpleBulkPopulate.FID_RANGES 0 = none →
       1 ≤ SimpleBulkPopulate.generate_weighted_fid pick r ∧
       SimpleBulkPopulate.generate_weighted_fid pick r ≤ 5000) := by
  refine ⟨rfl, ?_, rfl, ?_⟩
  · intro h
    have hg : BulkPopulate.generate_weighted_fid pick r = pick 20000 50000 := by
      unfold BulkPopulate.generate_weighted_fid
      rw [h]
    rw [hg]
    exact hpick 20000 50000 (by omega)
  · intro h
    have hg : SimpleBulkPopulate.generate_weighted_fid pick r = pick 1 5000 := by
      unfold SimpleBulkPopulate.generate_weighted_fid
      rw [h]
    rw [hg]
    exact hpick 1 5000 (by omega)

/-- Witness for the amended C5: a draw beyond the total configured mass
matches no range; bulk_populate.py then returns a key within
[20000, 50000] and simple_bulk_populate.py a key within [1, 5000]. -/
theorem fallback_range_amended_witness :
    selectRange (3/2) BulkPopulate.FID_RANGES 0 = none ∧
    (20000 ≤ BulkPopulate.generate_weighted_fid (fun a _ => a) (3/2) ∧
     BulkPopulate.generate_weighted_fid (fun a _ => a) (3/2) ≤ 50000) ∧
    selectRange (3/2) SimpleBulkPopulate.FID_RANGES 0 = none ∧
    (1 ≤ SimpleBulkPopulate.generate_weighted_fid (fun a _ => a) (3/2) ∧
     SimpleBulkPopulate.generate_weighted_fid (fun a _ => a) (3/2) ≤ 5000) :=
  ⟨by simp only [selectRange, BulkPopulate.FID_RANGES]; norm_num,
   (fallback_range_amended (fun a _ => a) (fun a b h => ⟨le_refl a, h⟩) (3/2)).2.1
     (by simp only [selectRange, BulkPopulate.FID_RANGES]; norm_num),
   by simp only [selectRange, SimpleBulkPopulate.FID_RANGES]; norm_num,
   (fallback_range_amended (fun a _ => a) (fun a b h => ⟨le_refl a, h⟩) (3/2)).2.2.2
     (by simp only [selectRange, SimpleBulkPopulate.FID_RANGES]; norm_num)⟩

/-- Counterexample to C5 as stated: a draw that matches no range makes
simple_bulk_populate.py's generate_weighted_fid return 1 (when randint
answers its lower bound), which does not lie in the last configured
range (15000, 30000) — the fallback is the fixed range [1, 5000]. -/
theorem fallback_range_cex :
    selectRange (3/2) SimpleBulkPopulate.FID_RANGES 0 = none ∧
    SimpleBulkPopulate.FID_RANGES.getLast? = some ⟨15000, 30000, 1/10⟩ ∧
    (∀ a b : ℕ, a ≤ b → a ≤ (fun (a _ : ℕ) => a) a b ∧ (fun (a _ : ℕ) => a) a b ≤ b) ∧
    SimpleBulkPopulate.generate_weighted_fid (fun a _ => a) (3/2) = 1 ∧
    ¬(15000 ≤ SimpleBulkPopulate.generate_weighted_fid (fun a _ => a) (3/2)) := by
  have hsel : selectRange (3/2) SimpleBulkPopulate.FID_RANGES 0 = none := by
    simp only [selectRange, SimpleBulkPopulate.FID_RANGES]
    norm_num
  refine ⟨hsel, rfl, fun a b h => ⟨le_refl a, h⟩, ?_, ?_⟩
  · unfold SimpleBulkPopulate.generate_weighted_fid
    rw [hsel]
  · unfold SimpleBulkPopulate.generate_weighted_fid
    rw [hsel]
    decide

theorem startsWithChars_iff (n : List Char) : ∀ h : List Char,
    startsWithChars n h = true ↔ n <+: h := by
  induction n with
  | nil => intro h; simp [startsWithChars]
  | cons a as ih =>
    intro h
    cases h with
    | nil => simp [startsWithChars]
    | cons b bs =>
      rw [List.cons_prefix_cons,
        show startsWithChars (a :: as) (b :: bs) = (a == b && startsWithChars as bs) from rfl,
        Bool.and_eq_true, beq_iff_eq, ih bs]

theorem containsChars_iff (n : List Char) : ∀ h : List Char,
    containsChars n h = true ↔ n <:+: h := by
  intro h
  induction h with
  | nil => simp [containsChars, List.isEmpty_iff]
  | cons b bs ih =>
    rw [List.infix_cons_iff,
      show containsChars n (b :: bs) = (startsWithChars n (b :: bs) || containsChars n bs)
        from rfl,
      Bool.or_eq_true, startsWithChars_iff, ih]

theorem isEmpty_false_iff (s : String) : s.isEmpty = false ↔ ¬s = "" := by
  rw [← String.isEmpty_iff]
  simp

/-- C7: check_neynar_user_exists returns true exactly when the curl call
finished with exit code 0, HTTP status "200", a decodable body whose
users array is non-empty and whose first user's fid equals the requested
key — so it returns false on every transport error or exception, every
non-200 status, every undecodable body, an empty users array, and a
mismatched fid. -/
theorem check_neynar_fails_closed (decode : String → Option BulkPopulate.NeynarBody)
    (fid : ℤ) (res : BulkPopulate.CurlOutcome) :
    BulkPopulate.check_neynar_user_exists decode fid res = true ↔
      ∃ (out : String) (body : BulkPopulate.NeynarBody) (u : BulkPopulate.NeynarUser)
        (rest : List BulkPopulate.NeynarUser),
        res = BulkPopulate.CurlOutcome.done 0 out ∧
        out.takeRight 3 = "200" ∧
        decode (out.dropRight 3) = some body ∧
        body.users = u :: rest ∧
        u.fid = some fid := by
  cases res with
  | exn => simp [BulkPopulate.check_neynar_user_exists]
  | done rc out =>
    simp only [BulkPopulate.check_neynar_user_exists]
    split
    · rename_i hrc
      simp [hrc]
    · rename_i hrc
      push_neg at hrc
      subst hrc
      split
      · rename_i hst
        simp [hst]
      · rename_i hst
        push_neg at hst
        split
        · rename_i hdec
          simp [hdec, hst]
        · rename_i body hdec
          split
          · rename_i hu
            simp [hdec, hu, hst]
          · rename_i u rest hu
            simp [hdec, hu, hst]

/-- C8: a failed fetch whose error message contains "not found" or
"invalid" case-insensitively is classified as a domain not-found, and —
like every per-attempt failure — it is handled inside the loop: the
iteration leaves successes unchanged, consumes one attempt, and the
loop goes on to its next iteration rather than aborting. -/
theorem notfound_failure_local
    (d : ℕ → ℕ) (o : ℕ → FetchResult) (quota maxAttempts fuel : ℕ) (s : RunState) (msg : String)
    (hmatch : "not found".toList <:+: (strLower msg).toList ∨
              "invalid".toList <:+: (strLower msg).toList)
    (hout : o s.fetchCount = FetchResult.err (some msg))
    (hguard : SimpleBulkPopulate.guard quota maxAttempts s = true) :
    classify_error msg = FailureClass.domainNotFound ∧
    (SimpleBulkPopulate.mainStep d o s).successes = s.successes ∧
    (SimpleBulkPopulate.mainStep d o s).attempts = s.attempts + 1 ∧
    SimpleBulkPopulate.mainRun quota maxAttempts d o (fuel + 1) s =
      SimpleBulkPopulate.mainRun quota maxAttempts d o fuel (SimpleBulkPopulate.mainStep d o s) := by
  refine ⟨?_, ?_, (simple_mainStep_shape d o s).1, ?_⟩
  · have hcond : (hasSubstr (strLower msg) "not found" ||
        hasSubstr (strLower msg) "invalid") = true := by
      rcases hmatch with h | h
      · have hc : hasSubstr (strLower msg) "not found" = true :=
          (containsChars_iff _ _).mpr h
        rw [hc, Bool.true_or]
      · have hc : hasSubstr (strLower msg) "invalid" = true :=
          (containsChars_iff _ _).mpr h
        rw [hc, Bool.or_true]
    unfold classify_error
    rw [if_pos hcond]
  · unfold SimpleBulkPopulate.mainStep
    dsimp only
    split
    · rfl
    · rw [hout]
  · unfold SimpleBulkPopulate.mainRun
    rw [runLoop_succ, if_pos hguard]

/-- Witness for C8: the mixed-case message "FID Not Found" is matched
case-insensitively and classified as a domain not-found; the concrete
iteration at the initial state leaves successes at 0. -/
theorem notfound_failure_local_witness :
    ("not found".toList <:+: (strLower "FID Not Found").toList ∨
     "invalid".toList <:+: (strLower "FID Not Found").toList) ∧
    SimpleBulkPopulate.guard 100 200 initRunState = true ∧
    classify_error "FID Not Found" = FailureClass.domainNotFound ∧
    (SimpleBulkPopulate.mainStep (fun _ => 7)
       (fun _ => FetchResult.err (some "FID Not Found")) initRunState).successes =
      initRunState.successes :=
  ⟨Or.inl ((containsChars_iff _ _).mp (by decide)), by decide,
   (notfound_failure_local (fun _ => 7) (fun _ => FetchResult.err (some "FID Not Found"))
      100 200 0 initRunState "FID Not Found"
      (Or.inl ((containsChars_iff _ _).mp (by decide))) rfl (by decide)).1,
   (notfound_failure_local (fun _ => 7) (fun _ => FetchResult.err (some "FID Not Found"))
      100 200 0 initRunState "FID Not Found"
      (Or.inl ((containsChars_iff _ _).mp (by decide))) rfl (by decide)).2.1⟩

/-- C9: the audit reports totalEntries as the number of leaderboard
entries and enrichedEntries as the number of entries whose username or
displayName is present and non-empty — the code's Python-truthiness test
coincides with the spec's "has enrichment" predicate. -/
theorem audit_counts_enrichment (lb : List ForceCacheRefresh.AggregateEntry) :
    (ForceCacheRefresh.audit lb).1 = lb.length ∧
    (ForceCacheRefresh.audit lb).2 =
      (lb.filter (fun e => ForceCacheRefresh.hasEnrichment e)).length ∧
    ∀ e : ForceCacheRefresh.AggregateEntry,
      ForceCacheRefresh.hasEnrichment e = true ↔ specHasEnrichment e := by
  refine ⟨rfl, ?_, ?_⟩
  · simp [ForceCacheRefresh.audit, ForceCacheRefresh.with_profiles,
      List.countP_eq_length_filter]
  · intro e
    unfold ForceCacheRefresh.hasEnrichment specHasEnrichment
    rcases hu : e.username with _ | su <;> rcases hd : e.displayName with _ | sd <;>
      simp [pyTruthy, hu, hd, isEmpty_false_iff]

theorem runUpdates_no_success (l : List BulkUpdate1To100.UpdateStatus) :
    ∀ c : BulkUpdate1To100.Counters,
    (∀ o ∈ l, ∀ hp : Bool, o ≠ BulkUpdate1To100.UpdateStatus.success hp) →
    (l.foldl BulkUpdate1To100.countStep c).successful_updates = c.successful_updates := by
  induction l with
  | nil => intro c _; rfl
  | cons hd tl ih =>
    intro c h
    have hhd := h hd (List.mem_cons_self hd tl)
    have hstep : (BulkUpdate1To100.countStep c hd).successful_updates =
        c.successful_updates := by
      cases hd with
      | success hp => exact absurd rfl (hhd hp)
      | error msg =>
        simp only [BulkUpdate1To100.countStep]
        split <;> rfl
      | failed msg => rfl
    rw [List.foldl_cons]
    calc (tl.foldl BulkUpdate1To100.countStep
            (BulkUpdate1To100.countStep c hd)).successful_updates
        = (BulkUpdate1To100.countStep c hd).successful_updates :=
          ih (BulkUpdate1To100.countStep c hd)
            (fun o ho hp => h o (List.mem_cons_of_mem hd ho) hp)
      _ = c.successful_updates := hstep

/-- C10: if every per-key result of the FIDs-1-to-100 run is a failure
or an error (no success), successful_updates ends at 0 and the final
summary's unguarded division raises ZeroDivisionError, aborting the
script before the leaderboard-refresh step; conversely the summary
completes (and refresh is reached) only when at least one update
succeeded. -/
theorem zero_success_division_abort (results : List BulkUpdate1To100.UpdateStatus) :
    ((∀ o ∈ results, ∀ hp : Bool, o ≠ BulkUpdate1To100.UpdateStatus.success hp) →
       (BulkUpdate1To100.runUpdates results).successful_updates = 0 ∧
       BulkUpdate1To100.mainSummary results = BulkUpdate1To100.MainResult.zeroDivisionAbort) ∧
    (∀ (q : ℚ) (b : Bool),
       BulkUpdate1To100.mainSummary results = BulkUpdate1To100.MainResult.completed q b →
       1 ≤ (BulkUpdate1To100.runUpdates results).successful_updates) := by
  constructor
  · intro h
    have h0 : (BulkUpdate1To100.runUpdates results).successful_updates = 0 :=
      runUpdates_no_success results _ h
    refine ⟨h0, ?_⟩
    unfold BulkUpdate1To100.mainSummary BulkUpdate1To100.profileCoverage
    rw [if_pos h0]
  · intro q b hc
    by_contra hlt
    push_neg at hlt
    have h0 : (BulkUpdate1To100.runUpdates results).successful_updates = 0 := by omega
    unfold BulkUpdate1To100.mainSummary BulkUpdate1To100.profileCoverage at hc
    rw [if_pos h0] at hc
    exact BulkUpdate1To100.MainResult.noConfusion hc

/-- Witness for C10: a run in which all 100 per-key fetches fail ends
with successful_updates = 0 and aborts with ZeroDivisionError before
the refresh step. -/
theorem zero_success_division_abort_witness :
    (BulkUpdate1To100.runUpdates
       (List.replicate 100 (BulkUpdate1To100.UpdateStatus.failed "Request failed"))).successful_updates = 0 ∧
    BulkUpdate1To100.mainSummary
       (List.replicate 100 (BulkUpdate1To100.UpdateStatus.failed "Request failed")) =
      BulkUpdate1To100.MainResult.zeroDivisionAbort :=
  (zero_success_division_abort
     (List.replicate 100 (BulkUpdate1To100.UpdateStatus.failed "Request failed"))).1
    (fun o ho hp => by
      rw [List.eq_of_mem_replicate ho]
      exact fun h => BulkUpdate1To100.UpdateStatus.noConfusion h)
